import Mathlib

/-!
Shallow embedding of the session reconstruction and correlation engine of
`src/dashboard.py` (functions `load_database` enrichment, `build_unified_session_view`
and `calculate_session_metrics`), together with theorems settling the frozen claims.

Modelling conventions:
* nullable dataframe cells are `Option` values (`none` = SQL NULL / NaN / NaT);
* timestamps are integers (seconds); money and rates are rationals;
* parsed JSON payloads are kept opaque except for the fields the engine reads:
  a payload's `str(...)` rendering is carried as a `String`;
* a Python dict used as a map is an association list where insertion prepends and
  lookup returns the first hit, so a later insertion overwrites an earlier one;
* Python truthiness of an optional string (`if x:`) is `none`/empty-string = false.
The guards of the form `'timestamp' in row` in the source test column *presence*
on a dataframe row; since every table is loaded with its full schema (`SELECT *`
plus enrichment), these guards are always true and are not modelled.
-/

namespace Dashboard

/-- Timestamps are modelled as integer seconds; `pd.Timestamp` differences in
seconds become integer subtraction. -/
abbrev Timestamp := Int

/-- A JSON scalar as Python sees it after `json.loads`: an integer, a string, or
any other value (`None`, list, dict, float omitted) on which `int(...)` raises. -/
inductive PyVal where
  | pint (n : Int)
  | pstr (s : String)
  | pother
deriving DecidableEq

/-- Decimal digit value of a character. -/
def charDigit? (c : Char) : Option Nat :=
  if c = '0' then some 0 else if c = '1' then some 1 else if c = '2' then some 2
  else if c = '3' then some 3 else if c = '4' then some 4 else if c = '5' then some 5
  else if c = '6' then some 6 else if c = '7' then some 7 else if c = '8' then some 8
  else if c = '9' then some 9 else none

/-- Accumulating decimal parser over a character list; any non-digit fails. -/
def parseDigits : List Char → Nat → Option Nat
  | [], acc => some acc
  | c :: cs, acc =>
    match charDigit? c with
    | some d => parseDigits cs (10 * acc + d)
    | none => none

/-- Python `int(s)` on a string: an optional sign followed by at least one
decimal digit; anything else raises, modelled as `none`. -/
def pyIntOfString (s : String) : Option Int :=
  match s.toList with
  | [] => none
  | '-' :: cs => if cs = [] then none else (parseDigits cs 0).map (fun n => -(n : Int))
  | '+' :: cs => if cs = [] then none else (parseDigits cs 0).map (fun n => (n : Int))
  | cs => (parseDigits cs 0).map (fun n => (n : Int))

/-- Python `int(v)`: succeeds on integers and on strings that parse as an integer,
raises (modelled as `.error`) otherwise. -/
def pyToInt : PyVal → Except String Int
  | .pint n => .ok n
  | .pstr s =>
    match pyIntOfString s with
    | some n => .ok n
    | none => .error "invalid literal for int()"
  | .pother => .error "int() argument error"

/-- The `usage` sub-structure of a parsed chat-completion response; each token
field may be absent from the dict. -/
structure UsageDict where
  total_tokens : Option PyVal
  prompt_tokens : Option PyVal
  completion_tokens : Option PyVal
deriving DecidableEq

/-- A parsed chat-completion response (`response_dict`): the `usage` key may be
absent; the rest of the structure is opaque and carried as its rendering. -/
structure ResponseDict where
  usage : Option UsageDict
  render : String
deriving DecidableEq

/-- A parsed chat-completion request (`request_dict`): the engine only reads its
`model` key; the rest is opaque. -/
structure RequestDict where
  model : Option String
  render : String
deriving DecidableEq

/-- A row of the `agents` table after JSON parsing (`config_dict` is the parsed
`init_args`, kept as its rendering). -/
structure AgentRow where
  session_id : Option String
  wrapper_id : Option String
  agent_id : Option String
  timestamp : Option Timestamp
  config_dict : String
  agent_class_name : String
  source_name : String
deriving DecidableEq

/-- A row of the `events` table after JSON parsing. -/
structure EventRow where
  session_id : Option String
  source_id : Option String
  timestamp : Option Timestamp
  event_name : Option String
  state_dict : String
  source_name : String
deriving DecidableEq

/-- A row of the `function_calls` table after JSON parsing; per the schema this
table has no `session_id` column. -/
structure FunctionCallRow where
  source_id : Option String
  timestamp : Option Timestamp
  function_name : String
  args_dict : String
  returns_dict : String
  source_name : String
deriving DecidableEq

/-- A row of the `oai_clients` table after JSON parsing. -/
structure OaiClientRow where
  session_id : Option String
  client_id : Option String
  wrapper_id : Option String
  timestamp : Option Timestamp
  config_dict : String
deriving DecidableEq

/-- A row of the `oai_wrappers` table after JSON parsing. -/
structure OaiWrapperRow where
  session_id : Option String
  wrapper_id : Option String
  timestamp : Option Timestamp
  config_dict : String
deriving DecidableEq

/-- A raw row of the `chat_completions` table after JSON parsing, before the
numeric enrichment of `load_database`. -/
structure ChatCompletionRow where
  session_id : Option String
  client_id : Option String
  invocation_id : Option String
  start_time : Option Timestamp
  end_time : Option Timestamp
  request_dict : RequestDict
  response_dict : ResponseDict
  cost : Rat
  latency : Rat
  is_cached : Bool
  wrapper_id : Option String
  source_name : String
deriving DecidableEq

/-- A chat-completion row after the enrichment step of `load_database` added the
derived numeric columns. -/
structure EnrichedCC extends ChatCompletionRow where
  duration : Option Int
  total_tokens : Int
  prompt_tokens : Int
  completion_tokens : Int
  cost_per_token : Rat
  completion_ratio : Rat
deriving DecidableEq

/-- The token extraction of `load_database`: each usage field defaults to the
Python integer `0` when the key is absent, then is passed through `int(...)`. -/
def extract_tokens (response_dict : ResponseDict) : Except String (Int × Int × Int) :=
  match pyToInt ((response_dict.usage.getD ⟨none, none, none⟩).total_tokens.getD (.pint 0)) with
  | .error e => .error e
  | .ok t =>
    match pyToInt ((response_dict.usage.getD ⟨none, none, none⟩).prompt_tokens.getD (.pint 0)) with
    | .error e => .error e
    | .ok p =>
      match pyToInt
          ((response_dict.usage.getD ⟨none, none, none⟩).completion_tokens.getD (.pint 0)) with
      | .error e => .error e
      | .ok c => .ok (t, p, c)

/-- Enrichment of one chat-completion row, mirroring `load_database`: duration,
token counts from the response's usage, normalised source name, and the two
division-guarded rates. -/
def enrichRow (r : ChatCompletionRow) : Except String EnrichedCC :=
  match extract_tokens r.response_dict with
  | .error e => .error e
  | .ok (t, p, c) =>
    .ok { r with
    source_name := r.source_name.toUpper.trim
    duration :=
      match r.start_time, r.end_time with
      | some s, some e => some (e - s)
      | _, _ => none
    total_tokens := t
    prompt_tokens := p
    completion_tokens := c
    cost_per_token := if 0 < t then r.cost / (t : Rat) else 0
    completion_ratio := if 0 < t then (c : Rat) / (t : Rat) else 0 }

/-- Enrichment of the whole chat-completion table; the first row whose usage
fields fail `int(...)` aborts the enrichment with that error, exactly as the
exception raised inside `pandas.apply` aborts `load_database`. -/
def enrichTable (rs : List ChatCompletionRow) : Except String (List EnrichedCC) :=
  rs.mapM enrichRow

/-- The eight unified event types of `build_unified_session_view`. -/
inductive EventType where
  | agent_config
  | event_received_message
  | event_other
  | llm_call_start
  | llm_call_end
  | function_call
  | client_config
  | wrapper_config
deriving DecidableEq

/-- The type-specific `details` payload of a unified event; opaque JSON payloads
are carried as their parsed structures or renderings. -/
inductive EventDetails where
  | agentConfig (config : String) (cls : String) (agent_id : Option String)
  | eventData (event_name : String) (data : String)
  | llmStart (request : RequestDict) (model : String) (wrapper_id : Option String)
  | llmEnd (response : ResponseDict) (cost : Rat) (latency : Rat) (is_cached : Bool)
      (wrapper_id : Option String)
  | funcCall (function_name : String) (args : String) (returns : String)
  | clientConfig (config : String) (wrapper_id : Option String)
  | wrapperConfig (config : String)
deriving DecidableEq

/-- The unified event record built by `build_unified_session_view`; events not
derived from chat completions carry no `invocation_id` key. -/
structure UnifiedEvent where
  timestamp : Option Timestamp
  session_id : Option String
  type : EventType
  source_name : String
  source_id : Option String
  invocation_id : Option String := none
  details : EventDetails
deriving DecidableEq

/-- The `id_to_session` Python dict: an association list where an insertion
prepends, so lookup by first match makes the latest insertion win. -/
abbrev IdMap := List (String × String)

/-- Dict assignment `m[k] = v`. -/
def dictInsert (m : IdMap) (k v : String) : IdMap := (k, v) :: m

/-- Dict lookup `m.get(k)`. -/
def dictGet (m : IdMap) (k : String) : Option String :=
  (m.find? (fun p => p.1 == k)).map (fun p => p.2)

/-- Registration of one `agents` row into `id_to_session`: for a row with a
non-null session id, the wrapper id and then the agent id are assigned. -/
def registerAgentRow (m : IdMap) (row : AgentRow) : IdMap :=
  match row.session_id with
  | none => m
  | some session_id =>
    let m :=
      match row.wrapper_id with
      | some w => dictInsert m w session_id
      | none => m
    match row.agent_id with
    | some a => dictInsert m a session_id
    | none => m

/-- Registration of one `oai_clients` row: client id then wrapper id. -/
def registerClientRow (m : IdMap) (row : OaiClientRow) : IdMap :=
  match row.session_id with
  | none => m
  | some session_id =>
    let m :=
      match row.client_id with
      | some c => dictInsert m c session_id
      | none => m
    match row.wrapper_id with
    | some w => dictInsert m w session_id
    | none => m

/-- Registration of one `oai_wrappers` row: wrapper id only. -/
def registerWrapperRow (m : IdMap) (row : OaiWrapperRow) : IdMap :=
  match row.session_id with
  | none => m
  | some session_id =>
    match row.wrapper_id with
    | some w => dictInsert m w session_id
    | none => m

/-- The tables consumed by `build_unified_session_view` (chat completions
already enriched by `load_database`). -/
structure Tables where
  agents : List AgentRow
  events : List EventRow
  chat_completions : List EnrichedCC
  function_calls : List FunctionCallRow
  oai_clients : List OaiClientRow
  oai_wrappers : List OaiWrapperRow
deriving DecidableEq

/-- The `id_to_session` map of `build_unified_session_view`: agents first, then
clients, then wrappers; the source's emptiness guards coincide with folding over
an empty list. -/
def build_id_to_session (t : Tables) : IdMap :=
  let m := t.agents.foldl registerAgentRow []
  let m := t.oai_clients.foldl registerClientRow m
  t.oai_wrappers.foldl registerWrapperRow m

/-- Unified events contributed by one `agents` row. -/
def agentEvents (row : AgentRow) : List UnifiedEvent :=
  [{ timestamp := row.timestamp
     session_id := row.session_id
     type := .agent_config
     source_name := row.source_name
     source_id := row.wrapper_id
     details := .agentConfig row.config_dict row.agent_class_name row.agent_id }]

/-- Unified events contributed by one `events` row; the type selects on whether
the row's event name equals `received_message`. -/
def eventEvents (row : EventRow) : List UnifiedEvent :=
  [{ timestamp := row.timestamp
     session_id := row.session_id
     type :=
       if row.event_name == some "received_message" then .event_received_message
       else .event_other
     source_name := row.source_name
     source_id := row.source_id
     details := .eventData (row.event_name.getD "Unknown") row.state_dict }]

/-- Unified events contributed by one enriched chat-completion row: a start and
an end event sharing the row's invocation id. -/
def ccEvents (row : EnrichedCC) : List UnifiedEvent :=
  [{ timestamp := row.start_time
     session_id := row.session_id
     type := .llm_call_start
     source_name := row.source_name
     source_id := row.client_id
     invocation_id := row.invocation_id
     details := .llmStart row.request_dict (row.request_dict.model.getD "Unknown") row.wrapper_id },
   { timestamp := row.end_time
     session_id := row.session_id
     type := .llm_call_end
     source_name := row.source_name
     source_id := row.client_id
     invocation_id := row.invocation_id
     details :=
       .llmEnd row.response_dict row.cost row.latency row.is_cached row.wrapper_id }]

/-- Python truthiness of an optional string value. -/
def pyTruthy : Option String → Bool
  | none => false
  | some s => !s.isEmpty

/-- The source line `session_id = id_to_session.get(source_id) if source_id else None`. -/
def fcSessionLookup (m : IdMap) (sid? : Option String) : Option String :=
  match sid? with
  | some s => if s.isEmpty then none else dictGet m s
  | none => none

/-- Unified events contributed by one `function_calls` row: the session comes
only from the identity map; the event is emitted under `if session_id:`. -/
def functionCallEvents (m : IdMap) (row : FunctionCallRow) : List UnifiedEvent :=
  let session_id := fcSessionLookup m row.source_id
  if pyTruthy session_id then
    [{ timestamp := row.timestamp
       session_id := session_id
       type := .function_call
       source_name := row.source_name
       source_id := row.source_id
       details := .funcCall row.function_name row.args_dict row.returns_dict }]
  else []

/-- Unified events contributed by one `oai_clients` row; the source name is the
fixed label `System`. -/
def clientEvents (row : OaiClientRow) : List UnifiedEvent :=
  [{ timestamp := row.timestamp
     session_id := row.session_id
     type := .client_config
     source_name := "System"
     source_id := row.client_id
     details := .clientConfig row.config_dict row.wrapper_id }]

/-- Unified events contributed by one `oai_wrappers` row; the source name is the
fixed label `System`. -/
def wrapperEvents (row : OaiWrapperRow) : List UnifiedEvent :=
  [{ timestamp := row.timestamp
     session_id := row.session_id
     type := .wrapper_config
     source_name := "System"
     source_id := row.wrapper_id
     details := .wrapperConfig row.config_dict }]

/-- The `unified_events` list in its production order: agents, events, llm
start and end pairs, function calls, client configs, wrapper configs. -/
def unified_events (t : Tables) : List UnifiedEvent :=
  let m := build_id_to_session t
  t.agents.flatMap agentEvents
    ++ t.events.flatMap eventEvents
    ++ t.chat_completions.flatMap ccEvents
    ++ t.function_calls.flatMap (functionCallEvents m)
    ++ t.oai_clients.flatMap clientEvents
    ++ t.oai_wrappers.flatMap wrapperEvents

/-- The sort comparison `key=lambda x: x['timestamp']`; it is only applied to
events whose timestamp is non-null, where `getD 0` is the identity. -/
def evLe (a b : UnifiedEvent) : Prop :=
  a.timestamp.getD 0 ≤ b.timestamp.getD 0

instance : DecidableRel evLe := fun _ _ => inferInstanceAs (Decidable (_ ≤ _))

instance : IsTotal UnifiedEvent evLe := ⟨fun _ _ => le_total _ _⟩

instance : IsTrans UnifiedEvent evLe := ⟨fun _ _ _ => le_trans⟩

/-- The `valid_events` list sorted stably by timestamp. Python's `sorted` is a
stable sort, and a stable sort's output is uniquely determined by the key order
and the input order, so the stable `insertionSort` computes the same list. -/
def sorted_valid_events (t : Tables) : List UnifiedEvent :=
  ((unified_events t).filter (fun e => e.timestamp.isSome)).insertionSort evLe

/-- The sorted events that survive the second discard pass (non-null session). -/
def grouped_events (t : Tables) : List UnifiedEvent :=
  (sorted_valid_events t).filter (fun e => e.session_id.isSome)

/-- The `session_data` bucket for one session id: appending events to a
per-session bucket in sorted order is filtering the sorted stream by session. -/
def sessionTimeline (t : Tables) (sid : String) : List UnifiedEvent :=
  (grouped_events t).filter (fun e => e.session_id == some sid)

/-- Helper for substring containment: whether `pat` is an initial segment of the
haystack. -/
def listStartsWith : List Char → List Char → Bool
  | _, [] => true
  | [], _ :: _ => false
  | a :: as, b :: bs => a == b && listStartsWith as bs

/-- Whether `pat` occurs contiguously somewhere in the haystack. -/
def listHasSub (pat : List Char) : List Char → Bool
  | [] => listStartsWith [] pat
  | h :: tl => listStartsWith (h :: tl) pat || listHasSub pat tl

/-- The Python containment test `pat in s` on strings. -/
def strContainsSub (s pat : String) : Bool := listHasSub pat.toList s.toList

/-- The failure test of `calculate_session_metrics`: an `event_received_message`
whose `details['data']`, rendered as text, contains `exitcode`. The source
indexes `details['data']`, a key present exactly on payloads of the events
table; events of this type only arise from that table (proved below), so the
catch-all branch is unreachable on normaliser output. -/
def isFailEvent (e : UnifiedEvent) : Bool :=
  e.type == .event_received_message &&
    match e.details with
    | .eventData _ data => strContainsSub data "exitcode"
    | _ => false

/-- The function name stored in a `function_call` event's details. -/
def funcNameOf : EventDetails → Option String
  | .funcCall fn _ _ => some fn
  | _ => none

/-- The model name stored in an `llm_call_start` event's details. -/
def modelOf : EventDetails → Option String
  | .llmStart _ model _ => some model
  | _ => none

/-- The rendered `data` payload stored in an events-table event's details. -/
def payloadData : EventDetails → Option String
  | .eventData _ data => some data
  | _ => none

/-- The summary record returned by `calculate_session_metrics`; the three
participant collections are Python sets, so they are modelled as finite sets. -/
structure SessionMetrics where
  session_id : String
  start_time : Timestamp
  end_time : Timestamp
  duration : Int
  status : String
  num_messages : Nat
  num_llm_calls : Nat
  num_function_calls : Nat
  agents : Finset String
  functions : Finset String
  models : Finset String
  total_cost : Rat
  total_tokens : Int
deriving DecidableEq

/-- The metrics calculator of `calculate_session_metrics`: an empty timeline
yields no metrics; otherwise min/max timestamps, the failure status fold, the
per-type counts, participant sets, and the cost/token sums taken directly from
the raw chat-completion table filtered by session id. Timeline events always
have a non-null timestamp, so `getD 0` is the identity on them. -/
def calculate_session_metrics (session_id : String) (session_events : List UnifiedEvent)
    (chat_completions_df : List EnrichedCC) : Option SessionMetrics :=
  match session_events with
  | [] => none
  | e0 :: rest =>
    let t0 := e0.timestamp.getD 0
    let start_time := rest.foldl (fun a e => min a (e.timestamp.getD 0)) t0
    let end_time := rest.foldl (fun a e => max a (e.timestamp.getD 0)) t0
    let status := (e0 :: rest).foldl
      (fun st e => if isFailEvent e then "Failed" else st) "Completed"
    let session_cc := chat_completions_df.filter (fun r => r.session_id == some session_id)
    some
      { session_id := session_id
        start_time := start_time
        end_time := end_time
        duration := end_time - start_time
        status := status
        num_messages := (e0 :: rest).countP (fun e => e.type == .event_received_message)
        num_llm_calls := (e0 :: rest).countP (fun e => e.type == .llm_call_start)
        num_function_calls := (e0 :: rest).countP (fun e => e.type == .function_call)
        agents := (e0 :: rest).foldl (fun s e => insert e.source_name s) ∅
        functions := (e0 :: rest).foldl
          (fun s e =>
            if e.type == .function_call then
              match funcNameOf e.details with
              | some fn => insert fn s
              | none => s
            else s) ∅
        models := (e0 :: rest).foldl
          (fun s e =>
            if e.type == .llm_call_start then
              match modelOf e.details with
              | some md => insert md s
              | none => s
            else s) ∅
        total_cost := (session_cc.map (fun r => r.cost)).sum
        total_tokens := (session_cc.map (fun r => r.total_tokens)).sum }

/-! Concrete snapshots used to witness the claim theorems. -/

/-- A sample agent row of session `S1`. -/
def agentRowW : AgentRow :=
  { session_id := some "S1", wrapper_id := some "W1", agent_id := some "A1",
    timestamp := some 1, config_dict := "cfg", agent_class_name := "Cls",
    source_name := "CEO" }

/-- A sample events row of session `S1` whose payload mentions `exitcode`. -/
def eventRowW : EventRow :=
  { session_id := some "S1", source_id := some "A1", timestamp := some 3,
    event_name := some "received_message", state_dict := "msg exitcode 1",
    source_name := "CTO" }

/-- A sample enriched chat-completion row of session `S1`. -/
def ccRowW : EnrichedCC :=
  { session_id := some "S1", client_id := some "C1", invocation_id := some "I1",
    start_time := some 5, end_time := some 9,
    request_dict := ⟨some "gpt", "req"⟩,
    response_dict := ⟨some ⟨some (.pint 100), none, none⟩, "resp"⟩,
    cost := 2, latency := 0, is_cached := false, wrapper_id := some "W1",
    source_name := "CEO", duration := some 4, total_tokens := 100,
    prompt_tokens := 40, completion_tokens := 60, cost_per_token := 0,
    completion_ratio := 0 }

/-- A sample function-call row whose source id resolves via the agent's wrapper. -/
def fcRowW : FunctionCallRow :=
  { source_id := some "W1", timestamp := some 7, function_name := "lookup",
    args_dict := "a", returns_dict := "r", source_name := "CEO" }

/-- A sample snapshot with one session `S1` and all four event sources. -/
def tW1 : Tables :=
  { agents := [agentRowW], events := [eventRowW], chat_completions := [ccRowW],
    function_calls := [fcRowW], oai_clients := [], oai_wrappers := [] }

/-- The agent-config event produced from `agentRowW`. -/
def evW1 : UnifiedEvent :=
  { timestamp := some 1, session_id := some "S1", type := .agent_config,
    source_name := "CEO", source_id := some "W1", invocation_id := none,
    details := .agentConfig "cfg" "Cls" (some "A1") }

/-- A chat-completion row with a null `end_time` (session `S1`). -/
def ccNoEnd : EnrichedCC :=
  { ccRowW with invocation_id := some "I1", start_time := some 0, end_time := none }

/-- A chat-completion row whose `end_time` precedes its `start_time`
(session `S2`). -/
def ccBackwards : EnrichedCC :=
  { ccRowW with
    session_id := some "S2"
    invocation_id := some "I2"
    start_time := some 10
    end_time := some 5 }

/-- A snapshot exhibiting an unmatched `llm_call_start` and an end-before-start
pair. -/
def tC2 : Tables :=
  { agents := [], events := [], chat_completions := [ccNoEnd, ccBackwards],
    function_calls := [], oai_clients := [], oai_wrappers := [] }

/-- The agents-table row of `tC3` registering `X` with session `A`. -/
def agentRowC3 : AgentRow :=
  { session_id := some "A", wrapper_id := some "X", agent_id := none,
    timestamp := none, config_dict := "", agent_class_name := "", source_name := "" }

/-- The wrappers-table row of `tC3` registering `X` with session `B`. -/
def wrapperRowC3 : OaiWrapperRow :=
  { session_id := some "B", wrapper_id := some "X", timestamp := none, config_dict := "" }

/-- A snapshot where the agents table maps `X` to session `A` and the wrappers
table maps `X` to session `B`. -/
def tC3 : Tables :=
  { agents := [agentRowC3], events := [], chat_completions := [],
    function_calls := [], oai_clients := [], oai_wrappers := [wrapperRowC3] }

/-- A function-call row whose source id appears in no configuration table. -/
def fcOrphan : FunctionCallRow :=
  { source_id := some "ZZ", timestamp := some 7, function_name := "lookup",
    args_dict := "a", returns_dict := "r", source_name := "CEO" }

/-- A snapshot with one resolvable and one orphaned function-call row. -/
def tC7 : Tables :=
  { agents := [agentRowW], events := [], chat_completions := [],
    function_calls := [fcRowW, fcOrphan], oai_clients := [], oai_wrappers := [] }

/-- A response whose usage carries a non-numeric `total_tokens`. -/
def respAbc : ResponseDict := ⟨some ⟨some (.pstr "abc"), none, none⟩, "resp"⟩

/-- A response with no `usage` key. -/
def respNoUsage : ResponseDict := ⟨none, "resp"⟩

/-- A raw chat-completion row whose response reports zero total tokens. -/
def rcZeroTok : ChatCompletionRow :=
  { session_id := some "S1", client_id := some "C1", invocation_id := some "I1",
    start_time := some 5, end_time := some 9,
    request_dict := ⟨some "gpt", "req"⟩,
    response_dict := ⟨some ⟨some (.pint 0), some (.pint 0), some (.pint 0)⟩, "resp"⟩,
    cost := 2, latency := 0, is_cached := false, wrapper_id := some "W1",
    source_name := "CEO" }

/-- A chat-completion row of session `S1` with null start and end times. -/
def ccNullTimes : EnrichedCC :=
  { ccRowW with
    invocation_id := some "I9"
    start_time := none
    end_time := none
    cost := 3
    total_tokens := 7 }

/-- A snapshot where session `S1` has a timeline but one of its chat-completion
rows contributes no events. -/
def tC10 : Tables :=
  { agents := [agentRowW], events := [], chat_completions := [ccRowW, ccNullTimes],
    function_calls := [], oai_clients := [], oai_wrappers := [] }

/-- An event with a null timestamp, as produced from a record with a null
required field. -/
def evNullTs : UnifiedEvent :=
  { timestamp := none, session_id := some "S1", type := .llm_call_end,
    source_name := "CEO", source_id := some "C1", invocation_id := some "I1",
    details := .wrapperConfig "x" }

/-! Helper lemmas shared by the claim theorems. -/

/-- Each registration step only prepends entries derived from its row. -/
lemma registerAgentRow_append (m : IdMap) (r : AgentRow) :
    registerAgentRow m r = registerAgentRow [] r ++ m := by
  obtain ⟨s, w, a, _, _, _, _⟩ := r
  cases s <;> cases w <;> cases a <;> simp [registerAgentRow, dictInsert]

/-- Each registration step only prepends entries derived from its row. -/
lemma registerClientRow_append (m : IdMap) (r : OaiClientRow) :
    registerClientRow m r = registerClientRow [] r ++ m := by
  obtain ⟨s, c, w, _, _⟩ := r
  cases s <;> cases c <;> cases w <;> simp [registerClientRow, dictInsert]

/-- Each registration step only prepends entries derived from its row. -/
lemma registerWrapperRow_append (m : IdMap) (r : OaiWrapperRow) :
    registerWrapperRow m r = registerWrapperRow [] r ++ m := by
  obtain ⟨s, w, _, _⟩ := r
  cases s <;> cases w <;> simp [registerWrapperRow, dictInsert]

/-- Folding a prepend-only registration over a table splits off the table's own
entries in front of the initial map. -/
lemma foldl_register_eq {α : Type} (f : IdMap → α → IdMap)
    (hf : ∀ m r, f m r = f [] r ++ m) :
    ∀ (rs : List α) (m : IdMap), rs.foldl f m = rs.foldl f [] ++ m := by
  intro rs
  induction rs with
  | nil => intro m; simp
  | cons r rs ih =>
    intro m
    simp only [List.foldl_cons]
    rw [ih (f m r), ih (f [] r), hf m r, List.append_assoc]

/-- A hit in the front part of a dict survives appending a rear part. -/
lemma dictGet_append_of_some {l₁ l₂ : IdMap} {k v : String}
    (h : dictGet l₁ k = some v) : dictGet (l₁ ++ l₂) k = some v := by
  unfold dictGet at h ⊢
  rw [List.find?_append]
  rcases hf : List.find? (fun p => p.1 == k) l₁ with _ | p
  · rw [hf] at h; simp at h
  · rw [hf] at h
    rw [hf]
    exact h

/-- Timeline membership characterised: an event is in a session's timeline iff
it was produced, has a non-null timestamp and carries that session's id. -/
lemma mem_sessionTimeline_iff {t : Tables} {sid : String} {e : UnifiedEvent} :
    e ∈ sessionTimeline t sid ↔
      e ∈ unified_events t ∧ e.timestamp.isSome = true ∧ e.session_id = some sid := by
  unfold sessionTimeline grouped_events sorted_valid_events
  constructor
  · intro h
    rcases List.mem_filter.1 h with ⟨h1, hq⟩
    rcases List.mem_filter.1 h1 with ⟨h2, _⟩
    have h3 := (List.perm_insertionSort evLe _).subset h2
    rcases List.mem_filter.1 h3 with ⟨h4, hts⟩
    exact ⟨h4, hts, by simpa using hq⟩
  · rintro ⟨h4, hts, hsid⟩
    refine List.mem_filter.2 ⟨List.mem_filter.2 ⟨?_, by simp [hsid]⟩, by simp [hsid]⟩
    exact (List.perm_insertionSort evLe _).mem_iff.2 (List.mem_filter.2 ⟨h4, hts⟩)

/-- An event with a null timestamp or a null session id appears in no timeline. -/
lemma not_mem_sessionTimeline {t : Tables} {sid : String} {e : UnifiedEvent}
    (h : e.timestamp = none ∨ e.session_id = none) : e ∉ sessionTimeline t sid := by
  intro hmem
  rcases mem_sessionTimeline_iff.1 hmem with ⟨_, hts, hsid⟩
  rcases h with h | h
  · rw [h] at hts; simp at hts
  · rw [h] at hsid; simp at hsid

/-- A function-call row whose source id is null, empty, or unmapped produces no
unified event. -/
lemma functionCallEvents_eq_nil {m : IdMap} {r : FunctionCallRow}
    (h : r.source_id = none ∨ ∀ s, r.source_id = some s → dictGet m s = none) :
    functionCallEvents m r = [] := by
  unfold functionCallEvents fcSessionLookup
  rcases hs : r.source_id with _ | s
  · rfl
  · rcases h with h | h
    · rw [hs] at h; cases h
    · by_cases he : s.isEmpty
      · simp [he, pyTruthy]
      · simp [he, h s hs, pyTruthy]

/-- Every produced event of type `event_received_message` comes from the events
table and therefore carries an `eventData` payload. -/
lemma details_of_received {t : Tables} {e : UnifiedEvent} (he : e ∈ unified_events t)
    (ht : e.type = .event_received_message) : ∃ n d, e.details = .eventData n d := by
  simp only [unified_events, List.mem_append, List.mem_flatMap] at he
  rcases he with ((((⟨r, _, hr⟩ | ⟨r, _, hr⟩) | ⟨r, _, hr⟩) | ⟨r, _, hr⟩) | ⟨r, _, hr⟩) | ⟨r, _, hr⟩
  · simp [agentEvents] at hr; subst hr; simp at ht
  · simp [eventEvents] at hr; subst hr; exact ⟨_, _, rfl⟩
  · simp [ccEvents] at hr
    rcases hr with hr | hr <;> subst hr <;> simp at ht
  · simp [functionCallEvents] at hr
    obtain ⟨-, rfl⟩ := hr
    simp at ht
  · simp [clientEvents] at hr; subst hr; simp at ht
  · simp [wrapperEvents] at hr; subst hr; simp at ht

/-- The status fold of `calculate_session_metrics` yields `Failed` iff the
initial value is `Failed` or some event trips the failure test. -/
lemma status_foldl (l : List UnifiedEvent) (st : String) :
    l.foldl (fun st e => if isFailEvent e then "Failed" else st) st
      = if st = "Failed" ∨ l.any isFailEvent then "Failed" else st := by
  induction l generalizing st with
  | nil => by_cases hst : st = "Failed" <;> simp [hst]
  | cons e l ih =>
    simp only [List.foldl_cons, List.any_cons]
    rw [ih]
    by_cases hf : isFailEvent e <;> by_cases hst : st = "Failed" <;> simp [hf, hst]

/-- An event produced from a chat-completion row of the snapshot is among the
produced unified events. -/
lemma mem_unified_of_mem_cc {t : Tables} {r : EnrichedCC} {e : UnifiedEvent}
    (hr : r ∈ t.chat_completions) (he : e ∈ ccEvents r) : e ∈ unified_events t := by
  simp only [unified_events, List.mem_append, List.mem_flatMap]
  exact Or.inl (Or.inl (Or.inl (Or.inr ⟨r, hr, he⟩)))

/-! Claim theorems. -/

/-- C1: for every session id, every event in that session's timeline built by
`build_unified_session_view` has a non-null timestamp and that session's id,
and the timeline is ordered non-decreasing by timestamp. -/
theorem spec_c1 (t : Tables) (sid : String) :
    (∀ e ∈ sessionTimeline t sid, e.timestamp.isSome = true ∧ e.session_id = some sid) ∧
    (sessionTimeline t sid).Pairwise
      (fun a b => ∀ x y, a.timestamp = some x → b.timestamp = some y → x ≤ y) := by
  constructor
  · intro e he
    exact ⟨(mem_sessionTimeline_iff.1 he).2.1, (mem_sessionTimeline_iff.1 he).2.2⟩
  · have hs : (sorted_valid_events t).Pairwise evLe := List.sorted_insertionSort evLe _
    have h1 : (grouped_events t).Pairwise evLe := List.Pairwise.filter _ hs
    have h2 : (sessionTimeline t sid).Pairwise evLe := List.Pairwise.filter _ h1
    refine h2.imp ?_
    intro a b hab x y hx hy
    unfold evLe at hab
    rw [hx, hy] at hab
    simpa using hab

/-- Witness for C1: the agent-config event of the sample snapshot is in the
timeline of session `S1`, with a non-null timestamp and that session id. -/
theorem spec_c1_witness :
    evW1 ∈ sessionTimeline tW1 "S1" ∧
      (evW1.timestamp.isSome = true ∧ evW1.session_id = some "S1") :=
  ⟨by decide, (spec_c1 tW1 "S1").1 evW1 (by decide)⟩

/-- C3: the identity map is the fold of the agents, then clients, then wrappers
registrations, by unconditional overwrite; an identifier registered by the
agents table with session `A` and by the wrappers table with session `B`
resolves to `B` in the final map. -/
theorem spec_c3 (t : Tables) (X A B : String)
    (_hA : dictGet (t.agents.foldl registerAgentRow []) X = some A)
    (hB : dictGet (t.oai_wrappers.foldl registerWrapperRow []) X = some B) :
    build_id_to_session t
        = t.oai_wrappers.foldl registerWrapperRow
            (t.oai_clients.foldl registerClientRow (t.agents.foldl registerAgentRow [])) ∧
    dictGet (build_id_to_session t) X = some B := by
  refine ⟨rfl, ?_⟩
  unfold build_id_to_session
  rw [foldl_register_eq registerWrapperRow registerWrapperRow_append]
  exact dictGet_append_of_some hB

/-- Witness for C3: in the sample snapshot `tC3`, identifier `X` is registered
with session `A` by agents and `B` by wrappers, and resolves to `B`. -/
theorem spec_c3_witness : dictGet (build_id_to_session tC3) "X" = some "B" :=
  (spec_c3 tC3 "X" "A" "B" (by decide) (by decide)).2

/-- Counterexample to C2 as stated: in `tC2`, session `S1`'s timeline contains
an `llm_call_start` (from a row with a null `end_time`) but no `llm_call_end`
at all, and session `S2`'s timeline has a start whose only end events carry a
strictly smaller timestamp (the row's `end_time` precedes its `start_time`). -/
theorem spec_c2_counterexample :
    (∃ e ∈ sessionTimeline tC2 "S1",
      e.type = EventType.llm_call_start ∧ e.invocation_id = some "I1") ∧
    (∀ e ∈ sessionTimeline tC2 "S1", e.type ≠ EventType.llm_call_end) ∧
    (∃ es ∈ sessionTimeline tC2 "S2", es.type = EventType.llm_call_start ∧
      ∀ ee ∈ sessionTimeline tC2 "S2", ee.type = EventType.llm_call_end →
        ee.timestamp.getD 0 < es.timestamp.getD 0) := by
  decide

/-- C2 amended: for every chat-completion row with a non-null session id whose
`start_time` and `end_time` are both non-null, the session's timeline contains
both the `llm_call_start` and the `llm_call_end` event of that row; the two
events share the row's invocation id, session id, source name and source id,
and the end event's timestamp is at least the start event's whenever
`end_time >= start_time`. (A row with a null `end_time` contributes a start
with no matching end, and a row with `end_time < start_time` an end that
precedes its start — see the counterexample.) -/
theorem spec_c2 (t : Tables) (r : EnrichedCC) (hr : r ∈ t.chat_completions)
    (sid : String) (hs : r.session_id = some sid)
    (ts te : Timestamp) (h1 : r.start_time = some ts) (h2 : r.end_time = some te) :
    ∃ es ∈ sessionTimeline t sid, ∃ ee ∈ sessionTimeline t sid,
      es.type = EventType.llm_call_start ∧ ee.type = EventType.llm_call_end ∧
      es.invocation_id = r.invocation_id ∧ ee.invocation_id = r.invocation_id ∧
      es.session_id = ee.session_id ∧ es.source_name = ee.source_name ∧
      es.source_id = ee.source_id ∧
      es.timestamp = some ts ∧ ee.timestamp = some te ∧
      (ts ≤ te → es.timestamp.getD 0 ≤ ee.timestamp.getD 0) := by
  have hmes :
      ({ timestamp := r.start_time, session_id := r.session_id,
         type := .llm_call_start, source_name := r.source_name,
         source_id := r.client_id, invocation_id := r.invocation_id,
         details := .llmStart r.request_dict (r.request_dict.model.getD "Unknown")
           r.wrapper_id } : UnifiedEvent) ∈ ccEvents r := by
    unfold ccEvents
    exact List.mem_cons_self _ _
  have hmee :
      ({ timestamp := r.end_time, session_id := r.session_id,
         type := .llm_call_end, source_name := r.source_name,
         source_id := r.client_id, invocation_id := r.invocation_id,
         details := .llmEnd r.response_dict r.cost r.latency r.is_cached
           r.wrapper_id } : UnifiedEvent) ∈ ccEvents r := by
    unfold ccEvents
    simp
  refine ⟨_, mem_sessionTimeline_iff.2 ⟨mem_unified_of_mem_cc hr hmes, ?_, ?_⟩,
    _, mem_sessionTimeline_iff.2 ⟨mem_unified_of_mem_cc hr hmee, ?_, ?_⟩,
    rfl, rfl, rfl, rfl, rfl, rfl, rfl, ?_, ?_, ?_⟩
  · simp [h1]
  · simpa using hs
  · simp [h2]
  · simpa using hs
  · simpa using h1
  · simpa using h2
  · intro hle
    simp [h1, h2, hle]

/-- Witness for C2 (amended): in the sample snapshot, the chat-completion row
of session `S1` yields a matched start/end pair at timestamps 5 and 9. -/
theorem spec_c2_witness :
    ∃ es ∈ sessionTimeline tW1 "S1", ∃ ee ∈ sessionTimeline tW1 "S1",
      es.type = EventType.llm_call_start ∧ ee.type = EventType.llm_call_end ∧
      es.invocation_id = ccRowW.invocation_id ∧ ee.invocation_id = ccRowW.invocation_id ∧
      es.session_id = ee.session_id ∧ es.source_name = ee.source_name ∧
      es.source_id = ee.source_id ∧
      es.timestamp = some 5 ∧ ee.timestamp = some 9 ∧
      ((5 : Int) ≤ 9 → es.timestamp.getD 0 ≤ ee.timestamp.getD 0) :=
  spec_c2 tW1 ccRowW (by decide) "S1" rfl 5 9 rfl rfl

/-- C4: for a non-empty session timeline, the status is `Failed` iff some
`event_received_message` event's payload, rendered as text, contains the
substring `exitcode`; with no such event the status is `Completed`. -/
theorem spec_c4 (t : Tables) (sid : String) (cc : List EnrichedCC)
    (h : sessionTimeline t sid ≠ []) :
    ((calculate_session_metrics sid (sessionTimeline t sid) cc).map (fun m => m.status)
        = some "Failed"
      ↔ ∃ e ∈ sessionTimeline t sid, e.type = EventType.event_received_message ∧
          strContainsSub ((payloadData e.details).getD "") "exitcode" = true) ∧
    ((calculate_session_metrics sid (sessionTimeline t sid) cc).map (fun m => m.status)
        = some "Completed"
      ↔ ¬ ∃ e ∈ sessionTimeline t sid, e.type = EventType.event_received_message ∧
          strContainsSub ((payloadData e.details).getD "") "exitcode" = true) := by
  have hiff : (sessionTimeline t sid).any isFailEvent = true ↔
      ∃ e ∈ sessionTimeline t sid, e.type = EventType.event_received_message ∧
        strContainsSub ((payloadData e.details).getD "") "exitcode" = true := by
    rw [List.any_eq_true]
    constructor
    · rintro ⟨e, he, hf⟩
      unfold isFailEvent at hf
      rw [Bool.and_eq_true] at hf
      rcases hf with ⟨h1, h2⟩
      have htype : e.type = EventType.event_received_message := by simpa using h1
      obtain ⟨n, d, hd⟩ := details_of_received (mem_sessionTimeline_iff.1 he).1 htype
      rw [hd] at h2
      refine ⟨e, he, htype, ?_⟩
      rw [hd]
      simpa [payloadData] using h2
    · rintro ⟨e, he, htype, hsub⟩
      obtain ⟨n, d, hd⟩ := details_of_received (mem_sessionTimeline_iff.1 he).1 htype
      rw [hd] at hsub
      simp only [payloadData, Option.getD_some] at hsub
      refine ⟨e, he, ?_⟩
      unfold isFailEvent
      rw [htype, hd]
      simpa using hsub
  obtain ⟨e0, rest, heq⟩ : ∃ e0 rest, sessionTimeline t sid = e0 :: rest := by
    rcases hx : sessionTimeline t sid with _ | ⟨e0, rest⟩
    · exact absurd hx h
    · exact ⟨e0, rest, rfl⟩
  rw [heq] at hiff ⊢
  have hm : (calculate_session_metrics sid (e0 :: rest) cc).map (fun m => m.status)
      = some (if (e0 :: rest).any isFailEvent then "Failed" else "Completed") := by
    have hbase : (calculate_session_metrics sid (e0 :: rest) cc).map (fun m => m.status)
        = some ((e0 :: rest).foldl
            (fun st e => if isFailEvent e then "Failed" else st) "Completed") := rfl
    rw [hbase, status_foldl]
    have : ¬("Completed" = "Failed") := by decide
    simp [this]
  rw [hm]
  by_cases hany : (e0 :: rest).any isFailEvent
  · have hex := hiff.1 hany
    rw [if_pos hany]
    refine ⟨⟨fun _ => hex, fun _ => rfl⟩, ?_, ?_⟩
    · intro hc
      exact absurd (Option.some.inj hc) (by decide)
    · intro hno
      exact absurd hex hno
  · have hno : ¬ ∃ e ∈ e0 :: rest, e.type = EventType.event_received_message ∧
        strContainsSub ((payloadData e.details).getD "") "exitcode" = true := by
      intro hex
      exact hany (hiff.2 hex)
    rw [if_neg hany]
    refine ⟨⟨fun hc => absurd (Option.some.inj hc) (by decide), fun hex => absurd hex hno⟩,
      fun _ => hno, fun _ => rfl⟩

/-- Witness for C4: in the sample snapshot, session `S1` has a non-empty
timeline and its status is `Failed` iff an `event_received_message` payload
mentions `exitcode`. -/
theorem spec_c4_witness :
    ((calculate_session_metrics "S1" (sessionTimeline tW1 "S1")
          tW1.chat_completions).map (fun m => m.status) = some "Failed"
      ↔ ∃ e ∈ sessionTimeline tW1 "S1", e.type = EventType.event_received_message ∧
          strContainsSub ((payloadData e.details).getD "") "exitcode" = true) :=
  (spec_c4 tW1 "S1" tW1.chat_completions (by decide)).1

/-- C5: for every session id and every (non-empty) timeline whatsoever, the
total cost and total tokens of the session's metrics are the sums of the cost
and token columns over the raw chat-completion rows carrying that session id;
the right-hand sides do not mention the timeline, so the two fields are
independent of its contents and in particular not derived from `llm_call_end`
payloads. -/
theorem spec_c5 (sid : String) (evs : List UnifiedEvent) (cc : List EnrichedCC)
    (h : evs ≠ []) :
    (calculate_session_metrics sid evs cc).map (fun m => m.total_cost)
        = some (((cc.filter (fun r => r.session_id == some sid)).map (fun r => r.cost)).sum) ∧
    (calculate_session_metrics sid evs cc).map (fun m => m.total_tokens)
        = some (((cc.filter (fun r => r.session_id == some sid)).map
            (fun r => r.total_tokens)).sum) := by
  rcases evs with _ | ⟨e0, rest⟩
  · exact absurd rfl h
  · exact ⟨rfl, rfl⟩

/-- Witness for C5: the metrics of session `S1` in the sample snapshot sum cost
and tokens from the raw chat-completion table filtered by session id. -/
theorem spec_c5_witness :
    (calculate_session_metrics "S1" (sessionTimeline tW1 "S1")
          tW1.chat_completions).map (fun m => m.total_cost)
        = some (((tW1.chat_completions.filter
            (fun r => r.session_id == some "S1")).map (fun r => r.cost)).sum) :=
  (spec_c5 "S1" (sessionTimeline tW1 "S1") tW1.chat_completions (by decide)).1

/-- C6: token counts come from the parsed response's usage sub-structure, each
defaulting to the integer 0 when the key is absent and passed through `int`;
a present value on which `int` raises makes the extraction — and with it the
row's enrichment — fail with an error instead of yielding 0. -/
theorem spec_c6 :
    (∀ resp : ResponseDict, resp.usage = none → extract_tokens resp = .ok (0, 0, 0)) ∧
    (∀ (resp : ResponseDict) (u : UsageDict) (v : PyVal) (msg : String),
      resp.usage = some u → u.total_tokens = some v → pyToInt v = .error msg →
      extract_tokens resp = .error msg) ∧
    (∃ msg, pyToInt (.pstr "abc") = .error msg) ∧
    (∀ r : ChatCompletionRow, (extract_tokens r.response_dict).isOk = false →
      (enrichRow r).isOk = false) ∧
    (∀ (resp : ResponseDict) (tk pk ck : Int), extract_tokens resp = .ok (tk, pk, ck) →
      pyToInt ((resp.usage.getD ⟨none, none, none⟩).total_tokens.getD (.pint 0)) = .ok tk ∧
      pyToInt ((resp.usage.getD ⟨none, none, none⟩).prompt_tokens.getD (.pint 0)) = .ok pk ∧
      pyToInt ((resp.usage.getD ⟨none, none, none⟩).completion_tokens.getD (.pint 0))
        = .ok ck) := by
  refine ⟨?_, ?_, ⟨"invalid literal for int()", rfl⟩, ?_, ?_⟩
  · intro resp h
    unfold extract_tokens
    rw [h]
    rfl
  · intro resp u v msg hu hv hp
    unfold extract_tokens
    rw [hu]
    simp only [Option.getD_some]
    rw [hv]
    simp only [Option.getD_some]
    rw [hp]
  · intro r h
    unfold enrichRow
    rcases hx : extract_tokens r.response_dict with msg | v
    · rfl
    · rw [hx] at h
      simp [Except.isOk, Except.toBool] at h
  · intro resp tk pk ck h
    unfold extract_tokens at h
    rcases h1 : pyToInt ((resp.usage.getD ⟨none, none, none⟩).total_tokens.getD (.pint 0))
      with m1 | t1 <;> rw [h1] at h
    · cases h
    rcases h2 : pyToInt ((resp.usage.getD ⟨none, none, none⟩).prompt_tokens.getD (.pint 0))
      with m2 | p1 <;> rw [h2] at h
    · cases h
    rcases h3 : pyToInt ((resp.usage.getD ⟨none, none, none⟩).completion_tokens.getD (.pint 0))
      with m3 | c1 <;> rw [h3] at h
    · cases h
    obtain ⟨rfl, rfl, rfl⟩ : t1 = tk ∧ p1 = pk ∧ c1 = ck := by
      have := Except.ok.inj h
      exact ⟨congrArg Prod.fst this, congrArg Prod.fst (congrArg Prod.snd this),
        congrArg Prod.snd (congrArg Prod.snd this)⟩
    exact ⟨rfl, rfl, rfl⟩

/-- Witness for C6: a usage with `total_tokens = "abc"` makes the extraction
fail, while an absent usage yields the zero defaults. -/
theorem spec_c6_witness :
    extract_tokens respAbc = .error "invalid literal for int()" ∧
      extract_tokens respNoUsage = .ok (0, 0, 0) :=
  ⟨spec_c6.2.1 respAbc ⟨some (.pstr "abc"), none, none⟩ (.pstr "abc")
      "invalid literal for int()" rfl rfl rfl,
    spec_c6.1 respNoUsage rfl⟩

/-- C7: a function-call row's session comes only from the identity-map lookup
of its source id (the function-calls table carries no session id column), and
a row whose source id is null or unmapped produces no event and leaves every
session's timeline — hence every session's metrics — unchanged when removed. -/
theorem spec_c7 (t : Tables) (r : FunctionCallRow) (l₁ l₂ : List FunctionCallRow)
    (hsplit : t.function_calls = l₁ ++ r :: l₂)
    (hbad : r.source_id = none ∨
      ∀ s, r.source_id = some s → dictGet (build_id_to_session t) s = none) :
    (∀ (m : IdMap) (r' : FunctionCallRow), ∀ e ∈ functionCallEvents m r',
        e.session_id = fcSessionLookup m r'.source_id) ∧
    functionCallEvents (build_id_to_session t) r = [] ∧
    (∀ sid, sessionTimeline t sid
        = sessionTimeline { t with function_calls := l₁ ++ l₂ } sid) ∧
    (∀ sid cc, calculate_session_metrics sid (sessionTimeline t sid) cc
        = calculate_session_metrics sid
            (sessionTimeline { t with function_calls := l₁ ++ l₂ } sid) cc) := by
  have hnil : functionCallEvents (build_id_to_session t) r = [] :=
    functionCallEvents_eq_nil hbad
  have hev : unified_events t = unified_events { t with function_calls := l₁ ++ l₂ } := by
    show t.agents.flatMap agentEvents ++ t.events.flatMap eventEvents
        ++ t.chat_completions.flatMap ccEvents
        ++ t.function_calls.flatMap (functionCallEvents (build_id_to_session t))
        ++ t.oai_clients.flatMap clientEvents ++ t.oai_wrappers.flatMap wrapperEvents
      = t.agents.flatMap agentEvents ++ t.events.flatMap eventEvents
        ++ t.chat_completions.flatMap ccEvents
        ++ (l₁ ++ l₂).flatMap (functionCallEvents (build_id_to_session t))
        ++ t.oai_clients.flatMap clientEvents ++ t.oai_wrappers.flatMap wrapperEvents
    rw [hsplit, List.flatMap_append, List.flatMap_cons, hnil, List.nil_append,
      ← List.flatMap_append]
  have htl : ∀ sid, sessionTimeline t sid
      = sessionTimeline { t with function_calls := l₁ ++ l₂ } sid := by
    intro sid
    unfold sessionTimeline grouped_events sorted_valid_events
    rw [hev]
  refine ⟨?_, hnil, htl, fun sid cc => by rw [htl sid]⟩
  intro m r' e he
  unfold functionCallEvents at he
  by_cases hp : pyTruthy (fcSessionLookup m r'.source_id) = true
  · rw [if_pos hp, List.mem_singleton] at he
    subst he
    rfl
  · rw [if_neg hp] at he
    exact absurd he (List.not_mem_nil e)

/-- Witness for C7: the orphaned function-call row of `tC7` produces no event,
and removing it leaves session `S1`'s timeline unchanged. -/
theorem spec_c7_witness :
    functionCallEvents (build_id_to_session tC7) fcOrphan = [] ∧
      sessionTimeline tC7 "S1"
        = sessionTimeline { tC7 with function_calls := [fcRowW] ++ [] } "S1" := by
  have h := spec_c7 tC7 fcOrphan [fcRowW] [] rfl
    (Or.inr (by
      intro s hs
      simp only [fcOrphan, Option.some.injEq] at hs
      subst hs
      decide))
  exact ⟨h.2.1, h.2.2.1 "S1"⟩

/-- C8: events with a null timestamp or null session id (exactly what records
missing those fields produce, per the per-table equations below) appear in no
timeline, and a function-call record without a resolvable source id produces
no event; normalisation is total, so no error is ever raised. -/
theorem spec_c8 (t : Tables) :
    (∀ e : UnifiedEvent, e.timestamp = none ∨ e.session_id = none →
      ∀ sid, e ∉ sessionTimeline t sid) ∧
    (∀ r : AgentRow, (agentEvents r).map (fun e => (e.timestamp, e.session_id))
        = [(r.timestamp, r.session_id)]) ∧
    (∀ r : EventRow, (eventEvents r).map (fun e => (e.timestamp, e.session_id))
        = [(r.timestamp, r.session_id)]) ∧
    (∀ r : EnrichedCC, (ccEvents r).map (fun e => (e.timestamp, e.session_id))
        = [(r.start_time, r.session_id), (r.end_time, r.session_id)]) ∧
    (∀ r : OaiClientRow, (clientEvents r).map (fun e => (e.timestamp, e.session_id))
        = [(r.timestamp, r.session_id)]) ∧
    (∀ r : OaiWrapperRow, (wrapperEvents r).map (fun e => (e.timestamp, e.session_id))
        = [(r.timestamp, r.session_id)]) ∧
    (∀ (m : IdMap) (r : FunctionCallRow),
      r.source_id = none ∨ (∀ s, r.source_id = some s → dictGet m s = none) →
      functionCallEvents m r = []) :=
  ⟨fun _ he _ => not_mem_sessionTimeline he, fun _ => rfl, fun _ => rfl, fun _ => rfl,
    fun _ => rfl, fun _ => rfl, fun _ _ h => functionCallEvents_eq_nil h⟩

/-- Witness for C8: a null-timestamp event is absent from the sample timeline,
and the orphaned function-call row produces no event. -/
theorem spec_c8_witness :
    evNullTs ∉ sessionTimeline tW1 "S1" ∧
      functionCallEvents (build_id_to_session tC7) fcOrphan = [] :=
  ⟨(spec_c8 tW1).1 evNullTs (Or.inl rfl) "S1",
    (spec_c8 tC7).2.2.2.2.2.2 (build_id_to_session tC7) fcOrphan
      (Or.inr (by
        intro s hs
        simp only [fcOrphan, Option.some.injEq] at hs
        subst hs
        decide))⟩

/-- C9: for a chat-completion row whose extracted total tokens are 0, the
enriched `cost_per_token` and `completion_ratio` are both exactly 0 (the
division is guarded, and the enrichment is a total function, so no division
error can be raised); with positive total tokens they are the cost and
completion-token quotients. -/
theorem spec_c9 (r : ChatCompletionRow) (tk pk ck : Int)
    (h : extract_tokens r.response_dict = .ok (tk, pk, ck)) :
    (tk = 0 →
      (enrichRow r).map (fun er => (EnrichedCC.cost_per_token er,
        EnrichedCC.completion_ratio er)) = .ok (0, 0)) ∧
    (0 < tk →
      (enrichRow r).map (fun er => (EnrichedCC.cost_per_token er,
        EnrichedCC.completion_ratio er))
        = .ok (r.cost / (tk : Rat), (ck : Rat) / (tk : Rat))) := by
  unfold enrichRow
  rw [h]
  constructor
  · intro h0
    subst h0
    simp [Except.map, EnrichedCC.cost_per_token, EnrichedCC.completion_ratio]
  · intro hpos
    simp [Except.map, EnrichedCC.cost_per_token, EnrichedCC.completion_ratio, hpos]

/-- Witness for C9: the sample zero-token row enriches to zero rate fields. -/
theorem spec_c9_witness :
    (enrichRow rcZeroTok).map (fun er => (EnrichedCC.cost_per_token er,
      EnrichedCC.completion_ratio er)) = .ok (0, 0) :=
  (spec_c9 rcZeroTok 0 0 0 rfl).1 rfl

/-- C10: a chat-completion row with the session's id but null start and end
times contributes no event to any timeline, yet its cost and tokens are still
counted in the session's metrics, which sum the raw table filtered by session
id. -/
theorem spec_c10 (t : Tables) (sid : String) (r : EnrichedCC) (l₁ l₂ : List EnrichedCC)
    (hsplit : t.chat_completions = l₁ ++ r :: l₂)
    (hsid : r.session_id = some sid)
    (hst : r.start_time = none) (hen : r.end_time = none)
    (h : sessionTimeline t sid ≠ []) :
    (∀ e ∈ ccEvents r, ∀ sid', e ∉ sessionTimeline t sid') ∧
    (calculate_session_metrics sid (sessionTimeline t sid) t.chat_completions).map
        (fun m => m.total_cost)
      = some (r.cost + (((l₁ ++ l₂).filter (fun x => x.session_id == some sid)).map
          (fun x => x.cost)).sum) ∧
    (calculate_session_metrics sid (sessionTimeline t sid) t.chat_completions).map
        (fun m => m.total_tokens)
      = some (r.total_tokens + (((l₁ ++ l₂).filter (fun x => x.session_id == some sid)).map
          (fun x => x.total_tokens)).sum) := by
  have hex : ∀ e ∈ ccEvents r, e.timestamp = none := by
    intro e he
    unfold ccEvents at he
    rcases List.mem_cons.1 he with rfl | he2
    · exact hst
    rcases List.mem_cons.1 he2 with rfl | he3
    · exact hen
    · exact absurd he3 (List.not_mem_nil e)
  obtain ⟨e0, rest, heq⟩ : ∃ e0 rest, sessionTimeline t sid = e0 :: rest := by
    rcases hx : sessionTimeline t sid with _ | ⟨e0, rest⟩
    · exact absurd hx h
    · exact ⟨e0, rest, rfl⟩
  have hbase : ∀ cc : List EnrichedCC,
      (calculate_session_metrics sid (sessionTimeline t sid) cc).map (fun m => m.total_cost)
        = some (((cc.filter (fun x => x.session_id == some sid)).map
            (fun x => x.cost)).sum) ∧
      (calculate_session_metrics sid (sessionTimeline t sid) cc).map
          (fun m => m.total_tokens)
        = some (((cc.filter (fun x => x.session_id == some sid)).map
            (fun x => x.total_tokens)).sum) := by
    intro cc
    rw [heq]
    exact ⟨rfl, rfl⟩
  refine ⟨fun e he sid' => not_mem_sessionTimeline (Or.inl (hex e he)), ?_, ?_⟩
  · rw [(hbase t.chat_completions).1, hsplit]
    simp only [List.filter_append, List.filter_cons, hsid, beq_self_eq_true, if_true,
      List.map_append, List.map_cons, List.sum_append, List.sum_cons]
    ring_nf
  · rw [(hbase t.chat_completions).2, hsplit]
    simp only [List.filter_append, List.filter_cons, hsid, beq_self_eq_true, if_true,
      List.map_append, List.map_cons, List.sum_append, List.sum_cons]
    ring_nf

/-- Witness for C10: in `tC10`, the null-times row of session `S1` contributes
no events but its cost 3 and tokens 7 are counted in the metric sums. -/
theorem spec_c10_witness :
    (∀ e ∈ ccEvents ccNullTimes, ∀ sid', e ∉ sessionTimeline tC10 sid') ∧
    (calculate_session_metrics "S1" (sessionTimeline tC10 "S1")
          tC10.chat_completions).map (fun m => m.total_cost)
      = some (ccNullTimes.cost + ((([ccRowW] ++ ([] : List EnrichedCC)).filter
          (fun x => x.session_id == some "S1")).map (fun x => x.cost)).sum) ∧
    (calculate_session_metrics "S1" (sessionTimeline tC10 "S1")
          tC10.chat_completions).map (fun m => m.total_tokens)
      = some (EnrichedCC.total_tokens ccNullTimes + ((([ccRowW] ++ ([] : List EnrichedCC)).filter
          (fun x => x.session_id == some "S1")).map
            (fun x => EnrichedCC.total_tokens x)).sum) :=
  spec_c10 tC10 "S1" ccNullTimes [ccRowW] [] rfl rfl rfl rfl (by decide)

end Dashboard
